import Mathlib

/-!
Verification of the mute_and_unmute_plugin repository.

The repository contains two implementations of the same chat-bot plugin:
a handler-based one (src/linglingbizui/plugin.py) and a chatter-based one
(src/plugin.py).  Both keep the plugin state in one persistent map from
chat-stream id to the absolute unix timestamp (seconds) at which the mute
expires: `plugin_storage[STORAGE_KEY_MUTED_STREAMS] : Dict[str, float]`.

This file shallowly embeds that state and the operations on it:
 - the muted-streams map is an association list `List (String × Int)`
   (Python dict keys are unique; `dinsert` overwrites, `derase` deletes),
 - timestamps are modelled as integer seconds (`datetime.now().timestamp()`
   becomes a parameter `now : Int`); a mute of `d` minutes stores
   `now + 60 * d` exactly as `(now + timedelta(minutes=d)).timestamp()` does,
 - outbound user-visible messages sent through `send_api.text_to_stream` /
   `self.send_text` are recorded as tags (`Msg`); the configurable message
   text and the strftime formatting are payload that no property depends on,
 - the post-unmute reply trigger (`generator_api` calls wrapped in
   try/except) is modelled by a `ReplyOutcome` parameter that only ever
   reaches the log field of the result,
 - `re.search` for the duration patterns is embedded as a direct scan
   (`findNumUnit`): the patterns `(\d+)\s*(unit alternatives)` are
   deterministic because no unit alternative starts with a digit or a
   whitespace character, so the leftmost match is found by trying each
   start position left to right with maximal digit and whitespace runs.
-/

namespace MutePlugin

/-- The persistent muted-streams map: stream id to expiry timestamp
(`Dict[str, float]` stored under `STORAGE_KEY_MUTED_STREAMS`). -/
abbrev MutedStreams := List (String × Int)

/-- Lookup of a key, as Python dict indexing / `in` test. -/
def dlookup : MutedStreams → String → Option Int
  | [], _ => none
  | p :: rest, s => if p.1 = s then some p.2 else dlookup rest s

/-- Python dict assignment `d[k] = v`: overwrite the entry if the key is
present, otherwise append it. -/
def dinsert : MutedStreams → String → Int → MutedStreams
  | [], s, x => [(s, x)]
  | p :: rest, s, x => if p.1 = s then (s, x) :: rest else p :: dinsert rest s x

/-- Python dict deletion `del d[k]`: remove the entry with that key. -/
def derase : MutedStreams → String → MutedStreams
  | [], _ => []
  | p :: rest, s => if p.1 = s then derase rest s else p :: derase rest s

/-- Plugin configuration (config_schema of both plugin files), with the
defaults declared there. -/
structure Config where
  plugin_enabled : Bool := true
  mute_enabled : Bool := true
  at_unmute_enabled : Bool := true
  default_mute_minutes : Nat := 10
  mute_aliases : List String := ["绫绫闭嘴"]
  unmute_aliases : List String := ["绫绫张嘴"]

/-- Tags for the user-visible messages the plugin sends; the concrete text
comes from the `messages` config section and is not property-relevant. -/
inductive Msg
  | pluginDisabled
  | muteDisabled
  | parseError
  | muteStart
  | unmuteStart
  | notMuted
  | atUnmute
deriving DecidableEq

/-- Outcome of the host reply-generation attempt made after an unmute
(`generator_api.get_replyer` / `generate_reply` inside try/except):
it can succeed, report failure, find no replyer, or raise. -/
inductive ReplyOutcome
  | ok
  | genFailed
  | noReplyer
  | raised (e : String)
deriving DecidableEq

/-- Log line printed by the swallowed reply-trigger block (the four print
branches of the try/except around the `generator_api` calls). -/
def replyLog : ReplyOutcome → String
  | ReplyOutcome.ok => "Attempted to trigger thinking after unmute."
  | ReplyOutcome.genFailed => "Failed to generate reply/trigger thinking after unmute."
  | ReplyOutcome.noReplyer => "Could not get replyer for stream to trigger thinking."
  | ReplyOutcome.raised e => "Error trying to trigger thinking after unmute: " ++ e

/-- Result of one command execution: the success flag of the returned
dict/tuple, the user-visible messages sent, the muted-streams map after the
call, and the log lines printed by the reply-trigger block. -/
structure ExecOutcome where
  success : Bool
  sent : List Msg
  map : MutedStreams
  logs : List String := []

/-- Python `str.strip()` emptiness test (`SimpleCommandArgs.is_empty` /
`not args.is_empty()` guard): true iff the string has only whitespace. -/
def isBlank (s : String) : Bool := s.data.all Char.isWhitespace

/-- Python `str.strip()`. -/
def trimS (s : String) : String :=
  String.mk (((s.data.dropWhile Char.isWhitespace).reverse.dropWhile Char.isWhitespace).reverse)

/-- Python `str.startswith`. -/
def startsWithS (s p : String) : Bool := p.data.isPrefixOf s.data

/-- Value of a run of decimal digits, as Python `int(...)` on the matched
group. -/
def digitsVal (l : List Char) : Nat :=
  l.foldl (fun n c => 10 * n + (c.toNat - 48)) 0

/-- `re.search(r'(\d+)\s*(alt1|alt2|...)', s)` for unit alternatives that
start with neither a digit nor whitespace: scan start positions left to
right; at a digit take the maximal digit run, skip the maximal whitespace
run, and succeed iff some alternative is a prefix of the remainder.
Returns the integer value of the matched digit group. -/
def findNumUnit (units : List (List Char)) : List Char → Option Nat
  | [] => none
  | c :: cs =>
    if c.isDigit then
      let digits := (c :: cs).takeWhile Char.isDigit
      let rest := ((c :: cs).dropWhile Char.isDigit).dropWhile Char.isWhitespace
      if units.any (fun u => u.isPrefixOf rest) then some (digitsVal digits)
      else findNumUnit units cs
    else findNumUnit units cs

/-- Minute-unit alternatives of `MuteMaiCommand._parse_duration`
(pattern `(\d+)\s*(?:分钟|min|m)`). -/
def unitsMin : List (List Char) := [String.data "分钟", String.data "min", String.data "m"]

/-- Hour-unit alternatives (pattern `(\d+)\s*(?:小时|h)`). -/
def unitsHour : List (List Char) := [String.data "小时", String.data "h"]

/-- Day-unit alternative (pattern `(\d+)\s*天`). -/
def unitsDay : List (List Char) := [String.data "天"]

/-- `duration_str.lower()` as a character list (`str.lower`; ASCII case
folding suffices for the claims, which use ASCII and Chinese input). -/
def lowerData (s : String) : List Char := s.data.map Char.toLower

/-- `MuteMaiCommand._parse_duration` (src/linglingbizui/plugin.py lines
91-114): lowercase, then try the minute, hour and day patterns in that
order; the first match wins; no match yields None. -/
def parse_duration (s : String) : Option Nat :=
  match findNumUnit unitsMin (lowerData s) with
  | some n => some n
  | none =>
    match findNumUnit unitsHour (lowerData s) with
    | some n => some (n * 60)
    | none =>
      match findNumUnit unitsDay (lowerData s) with
      | some n => some (n * 24 * 60)
      | none => none

/-- Duration selection of the handler-based `MuteMaiCommand.execute`
(src/linglingbizui/plugin.py lines 60-70): a present, non-blank argument is
stripped and parsed, otherwise the configured default is used. -/
def muteDuration (cfg : Config) (args : Option String) : Option Nat :=
  match args with
  | some s => if isBlank s then some cfg.default_mute_minutes else parse_duration (trimS s)
  | none => some cfg.default_mute_minutes

/-- Handler-based `MuteMaiCommand.execute` (src/linglingbizui/plugin.py
lines 36-89): refuse if the plugin or mute toggle is off, refuse on a
duration parse failure, otherwise store `now + 60 * minutes` for the
stream and confirm. -/
def muteExecuteV1 (cfg : Config) (sid : String) (args : Option String) (now : Int)
    (m : MutedStreams) : ExecOutcome :=
  if cfg.plugin_enabled = false then { success := false, sent := [Msg.pluginDisabled], map := m }
  else if cfg.mute_enabled = false then { success := false, sent := [Msg.muteDisabled], map := m }
  else
    match muteDuration cfg args with
    | none => { success := false, sent := [Msg.parseError], map := m }
    | some d =>
      { success := true, sent := [Msg.muteStart], map := dinsert m sid (now + 60 * (d : Int)) }

/-- Chatter-file `MuteMaiCommand.execute` (src/plugin.py lines 40-88):
same toggle checks, but no argument parsing; always the configured
default duration. -/
def muteExecuteV2 (cfg : Config) (sid : String) (now : Int) (m : MutedStreams) : ExecOutcome :=
  if cfg.plugin_enabled = false then { success := false, sent := [Msg.pluginDisabled], map := m }
  else if cfg.mute_enabled = false then { success := false, sent := [Msg.muteDisabled], map := m }
  else
    { success := true, sent := [Msg.muteStart],
      map := dinsert m sid (now + 60 * (cfg.default_mute_minutes : Int)) }

/-- Handler-based `UnmuteMaiCommand.execute` (src/linglingbizui/plugin.py
lines 124-189): toggle checks; if the stream has a record, delete it, send
the unmute confirmation, attempt the reply trigger (exceptions swallowed)
and return success True; if it has none, send nothing and return success
True with a distinct result message. -/
def unmuteExecuteV1 (cfg : Config) (sid : String) (r : ReplyOutcome)
    (m : MutedStreams) : ExecOutcome :=
  if cfg.plugin_enabled = false then { success := false, sent := [Msg.pluginDisabled], map := m }
  else if cfg.mute_enabled = false then { success := false, sent := [Msg.muteDisabled], map := m }
  else
    match dlookup m sid with
    | some _ =>
      { success := true, sent := [Msg.unmuteStart], map := derase m sid, logs := [replyLog r] }
    | none => { success := true, sent := [], map := m }

/-- Chatter-file `UnmuteMaiCommand.execute` (src/plugin.py lines 98-167):
like the handler-based version, but the no-record case sends the
not-muted message and returns success False. -/
def unmuteExecuteV2 (cfg : Config) (sid : String) (r : ReplyOutcome)
    (m : MutedStreams) : ExecOutcome :=
  if cfg.plugin_enabled = false then { success := false, sent := [Msg.pluginDisabled], map := m }
  else if cfg.mute_enabled = false then { success := false, sent := [Msg.muteDisabled], map := m }
  else
    match dlookup m sid with
    | some _ =>
      { success := true, sent := [Msg.unmuteStart], map := derase m sid, logs := [replyLog r] }
    | none => { success := false, sent := [Msg.notMuted], map := m }

/-- `AtUnmuteHandler.handle` (src/linglingbizui/plugin.py lines 337-416):
with all three toggles on, a live record and the bot id among the
mentioned user ids, delete the record; in every other case (including an
expired record, which is left for `MuteHandler` to clean) the map is
unchanged.  The `global_config` import is assumed to succeed. -/
def atUnmuteHandle (cfg : Config) (sid botId : String) (mentioned : List String)
    (now : Int) (m : MutedStreams) : MutedStreams :=
  if cfg.plugin_enabled = false then m
  else if cfg.mute_enabled = false then m
  else if cfg.at_unmute_enabled = false then m
  else
    match dlookup m sid with
    | some e =>
      if now < e then (if botId ∈ mentioned then derase m sid else m) else m
    | none => m

/-- `MuteHandler.handle` (src/linglingbizui/plugin.py lines 428-472): with
the toggles on, intercept while a live record exists; delete an expired
record on observation (lazy expiry).  Returns (intercepted, new map). -/
def muteHandlerHandle (cfg : Config) (sid : String) (now : Int)
    (m : MutedStreams) : Bool × MutedStreams :=
  if cfg.plugin_enabled = false then (false, m)
  else if cfg.mute_enabled = false then (false, m)
  else
    match dlookup m sid with
    | some e => if now < e then (true, m) else (false, derase m sid)
    | none => (false, m)

/-- `MuteAndUnmutePlugin.on_plugin_loaded` (both files, lines 577-593 and
675-692): if the stored muted-streams map is non-empty, overwrite it with
the empty dict; otherwise leave it (it is already empty). -/
def onPluginLoaded (m : MutedStreams) : MutedStreams :=
  if m.isEmpty then m else []

/-- The instance attributes a `MuteControlChatter` carries
(src/plugin.py lines 184-190 set them in `__init__`). -/
structure ChatterVals where
  plugin_enabled_val : Bool
  mute_enabled_val : Bool
  at_unmute_enabled_val : Bool
  mute_aliases : List String
  unmute_aliases : List String
  default_mute_minutes_val : Nat

/-- `MuteControlChatter.__init__` attribute values (src/plugin.py lines
184-189): toggles True, empty alias lists, default 10. -/
def chatterInit : ChatterVals :=
  { plugin_enabled_val := true, mute_enabled_val := true, at_unmute_enabled_val := true,
    mute_aliases := [], unmute_aliases := [], default_mute_minutes_val := 10 }

/-- The config load at the start of `MuteControlChatter.execute`
(src/plugin.py lines 249-268).  Note that the assignment of
`at_unmute_enabled_val` is commented out in the source (lines 253 and
262), so that flag keeps the value it had before the load. -/
def chatterLoadConfig (cfg : Config) (v : ChatterVals) : ChatterVals :=
  { v with plugin_enabled_val := cfg.plugin_enabled,
           mute_enabled_val := cfg.mute_enabled,
           mute_aliases := cfg.mute_aliases,
           unmute_aliases := cfg.unmute_aliases,
           default_mute_minutes_val := cfg.default_mute_minutes }

/-- `_execute_mute_logic_direct_from_chatter` (src/plugin.py lines
310-344): toggle refusals leave the map unchanged; otherwise store
`now + 60 * default_mute_minutes_val` for the stream. -/
def chatterMuteLogic (v : ChatterVals) (sid : String) (now : Int)
    (m : MutedStreams) : MutedStreams × Bool × List Msg :=
  if v.plugin_enabled_val = false then (m, false, [Msg.pluginDisabled])
  else if v.mute_enabled_val = false then (m, false, [Msg.muteDisabled])
  else (dinsert m sid (now + 60 * (v.default_mute_minutes_val : Int)), true, [Msg.muteStart])

/-- `_execute_unmute_logic_direct_from_chatter` (src/plugin.py lines
361-424): toggle refusals; delete the record when present (reply trigger
exceptions are swallowed and only printed), otherwise send the not-muted
message and report failure. -/
def chatterUnmuteLogic (v : ChatterVals) (sid : String)
    (m : MutedStreams) : MutedStreams × Bool × List Msg :=
  if v.plugin_enabled_val = false then (m, false, [Msg.pluginDisabled])
  else if v.mute_enabled_val = false then (m, false, [Msg.muteDisabled])
  else
    match dlookup m sid with
    | some _ => (derase m sid, true, [Msg.unmuteStart])
    | none => (m, false, [Msg.notMuted])

/-- Step 1 of `MuteControlChatter.execute` (src/plugin.py lines 304-355):
if the stripped content starts with some configured mute alias, run the
mute logic once (the loop breaks after the first match, and the logic does
not depend on which alias matched). -/
def chatterStep1 (v : ChatterVals) (sid content : String) (now : Int)
    (m : MutedStreams) : MutedStreams :=
  if v.mute_aliases.any (fun a => startsWithS (trimS content) a) then
    (chatterMuteLogic v sid now m).1
  else m

/-- Step 2 of `MuteControlChatter.execute` (src/plugin.py lines 357-432):
same for the unmute aliases, on the unstripped content. -/
def chatterStep2 (v : ChatterVals) (sid content : String)
    (m : MutedStreams) : MutedStreams :=
  if v.unmute_aliases.any (fun a => startsWithS content a) then
    (chatterUnmuteLogic v sid m).1
  else m

/-- Step 3 of `MuteControlChatter.execute` (src/plugin.py lines 434-541):
the @-wake check, gated only on the instance attribute
`at_unmute_enabled_val`; if the bot id is among the extracted mentions and
a live record exists, delete it.  The `global_config` import is assumed to
succeed. -/
def chatterAtCheck (v : ChatterVals) (sid botId : String) (mentioned : List String)
    (now : Int) (m : MutedStreams) : MutedStreams :=
  if v.at_unmute_enabled_val = true ∧ botId ∈ mentioned then
    match dlookup m sid with
    | some e => if now < e then derase m sid else m
    | none => m
  else m

/-- Step 4 of `MuteControlChatter.execute` (src/plugin.py lines 542-588):
the mute-status check; block follow-up processing while a live record
exists, delete an expired record on observation. -/
def chatterStatusCheck (sid : String) (now : Int)
    (m : MutedStreams) : MutedStreams × Bool :=
  match dlookup m sid with
  | some e => if now < e then (m, true) else (derase m sid, false)
  | none => (m, false)

/-- `MuteControlChatter.execute` (src/plugin.py lines 193-588): an empty
text content returns before any check; otherwise the alias steps, the
@-wake check and the status check run in order on the shared storage.
Returns (new map, block_follow_up_processing). -/
def chatterExecute (v : ChatterVals) (sid botId content : String)
    (mentioned : List String) (now : Int) (m : MutedStreams) : MutedStreams × Bool :=
  if content = "" then (m, false)
  else
    chatterStatusCheck sid now
      (chatterAtCheck v sid botId mentioned now
        (chatterStep2 v sid content
          (chatterStep1 v sid content now m)))

/-- A configuration with every field at its declared default. -/
def cfgOn : Config := {}

/-- The default configuration with a 5-minute default duration. -/
def cfgMin5 : Config := { default_mute_minutes := 5 }

/-- The default configuration with the plugin-level toggle off. -/
def cfgPluginOff : Config := { plugin_enabled := false }

/-- The default configuration with the mute-level toggle off. -/
def cfgMuteOff : Config := { mute_enabled := false }

/-! Dictionary lemmas. -/

theorem dlookup_dinsert_self (m : MutedStreams) (s : String) (x : Int) :
    dlookup (dinsert m s x) s = some x := by
  induction m with
  | nil => simp [dinsert, dlookup]
  | cons p rest ih =>
    by_cases h : p.1 = s
    · simp [dinsert, dlookup, h]
    · simp [dinsert, dlookup, h, ih]

theorem dlookup_dinsert_ne (m : MutedStreams) (s k : String) (x : Int) (h : k ≠ s) :
    dlookup (dinsert m s x) k = dlookup m k := by
  have hsk : ¬ (s = k) := fun hh => h hh.symm
  induction m with
  | nil => simp [dinsert, dlookup, hsk]
  | cons p rest ih =>
    by_cases hp : p.1 = s
    · have hpk : ¬ (p.1 = k) := by rw [hp]; exact hsk
      simp [dinsert, dlookup, hp, hsk, hpk]
    · simp only [dinsert, if_neg hp]
      by_cases hpk : p.1 = k
      · simp [dlookup, hpk]
      · simp [dlookup, hpk, ih]

theorem dlookup_derase_self (m : MutedStreams) (s : String) :
    dlookup (derase m s) s = none := by
  induction m with
  | nil => rfl
  | cons p rest ih =>
    by_cases h : p.1 = s
    · simp [derase, h, ih]
    · simp [derase, dlookup, h, ih]

theorem dlookup_derase_ne (m : MutedStreams) (s k : String) (h : k ≠ s) :
    dlookup (derase m s) k = dlookup m k := by
  have hsk : ¬ (s = k) := fun hh => h hh.symm
  induction m with
  | nil => rfl
  | cons p rest ih =>
    by_cases hp : p.1 = s
    · have hpk : ¬ (p.1 = k) := by rw [hp]; exact hsk
      simp [derase, dlookup, hp, hpk, hsk, ih]
    · by_cases hpk : p.1 = k
      · simp [derase, dlookup, hp, hpk, h, ih]
      · simp [derase, dlookup, hp, hpk, ih]

theorem muteExecuteV1_default_map (cfg : Config) (sid : String) (t : Int) (m : MutedStreams)
    (hp : cfg.plugin_enabled = true) (hm : cfg.mute_enabled = true) :
    (muteExecuteV1 cfg sid none t m).map
      = dinsert m sid (t + 60 * (cfg.default_mute_minutes : Int)) := by
  simp [muteExecuteV1, muteDuration, hp, hm]

theorem chatterMuteLogic_map (v : ChatterVals) (sid : String) (t : Int) (m : MutedStreams)
    (hp : v.plugin_enabled_val = true) (hm : v.mute_enabled_val = true) :
    (chatterMuteLogic v sid t m).1
      = dinsert m sid (t + 60 * (v.default_mute_minutes_val : Int)) := by
  simp [chatterMuteLogic, hp, hm]

/-! Claim theorems. -/

/-- C1: a stream muted for D minutes at time T is reported muted (the
message is intercepted) by the status check exactly at times T' with
T' < T + 60 * D, and a check observing an expired record removes it from
the map; the window statement also holds for the chatter-based status
check after a mute through the chatter mute logic. -/
theorem mute_window_and_lazy_expiry (cfg : Config) (sid : String) (t tq : Int)
    (m : MutedStreams) (hp : cfg.plugin_enabled = true) (hm : cfg.mute_enabled = true) :
    (((muteHandlerHandle cfg sid tq (muteExecuteV1 cfg sid none t m).map).1 = true)
        ↔ tq < t + 60 * (cfg.default_mute_minutes : Int))
    ∧ (∀ (m₀ : MutedStreams) (e : Int), dlookup m₀ sid = some e → e ≤ tq →
        dlookup (muteHandlerHandle cfg sid tq m₀).2 sid = none)
    ∧ (∀ (v : ChatterVals) (botId content : String) (mentioned : List String),
        v.plugin_enabled_val = true → v.mute_enabled_val = true →
        v.mute_aliases = [] → v.unmute_aliases = [] → content ≠ "" → botId ∉ mentioned →
        (((chatterExecute v sid botId content mentioned tq (chatterMuteLogic v sid t m).1).2
            = true)
          ↔ tq < t + 60 * (v.default_mute_minutes_val : Int))) := by
  refine ⟨?_, ?_, ?_⟩
  · rw [muteExecuteV1_default_map cfg sid t m hp hm]
    by_cases h : tq < t + 60 * (cfg.default_mute_minutes : Int) <;>
      simp [muteHandlerHandle, hp, hm, dlookup_dinsert_self, h]
  · intro m₀ e he hle
    have hnl : ¬ (tq < e) := not_lt.mpr hle
    simp [muteHandlerHandle, hp, hm, he, hnl, dlookup_derase_self]
  · intro v botId content mentioned hvp hvm ha1 ha2 hc hmem
    rw [chatterMuteLogic_map v sid t m hvp hvm]
    by_cases h : tq < t + 60 * (v.default_mute_minutes_val : Int) <;>
      simp [chatterExecute, chatterStep1, chatterStep2, chatterAtCheck, chatterStatusCheck,
        ha1, ha2, hc, hmem, dlookup_dinsert_self, h]

/-- C1 witness: with the default configuration, a stream muted at time 0
is intercepted at time 0 (the default duration is 10 minutes). -/
theorem mute_window_and_lazy_expiry_witness :
    (muteHandlerHandle cfgOn "chat1" 0 (muteExecuteV1 cfgOn "chat1" none 0 []).map).1
      = true :=
  (mute_window_and_lazy_expiry cfgOn "chat1" 0 0 [] rfl rfl).1.mpr (by norm_num [cfgOn])

/-- C2: muting a stream stores exactly `now + 60 * duration` for it, no
matter what expiry it had before: the stored expiry after any mute is the
time of that mute plus its duration, in both command implementations and
for an explicitly parsed duration argument. -/
theorem mute_overwrites_expiry (cfg : Config) (sid : String) (t : Int) (m : MutedStreams)
    (hp : cfg.plugin_enabled = true) (hm : cfg.mute_enabled = true) :
    dlookup (muteExecuteV1 cfg sid none t m).map sid
        = some (t + 60 * (cfg.default_mute_minutes : Int))
    ∧ dlookup (muteExecuteV2 cfg sid t m).map sid
        = some (t + 60 * (cfg.default_mute_minutes : Int))
    ∧ (∀ (s : String) (d : Nat), isBlank s = false → parse_duration (trimS s) = some d →
        dlookup (muteExecuteV1 cfg sid (some s) t m).map sid
          = some (t + 60 * (d : Int))) := by
  refine ⟨?_, ?_, ?_⟩
  · rw [muteExecuteV1_default_map cfg sid t m hp hm]
    exact dlookup_dinsert_self m sid _
  · simp [muteExecuteV2, hp, hm, dlookup_dinsert_self]
  · intro s d hb hd
    simp [muteExecuteV1, muteDuration, hp, hm, hb, hd, dlookup_dinsert_self]

/-- C2 witness: mute chat1 for 5 minutes at time 0, then for 10 minutes at
time 60 (one minute later): the stored expiry is 660 = 60 + 600, not
900 = 300 + 600. -/
theorem mute_overwrites_expiry_witness :
    dlookup (muteExecuteV1 cfgOn "chat1" none 60
        (muteExecuteV1 cfgMin5 "chat1" none 0 []).map).map "chat1" = some 660 := by
  have h := (mute_overwrites_expiry cfgOn "chat1" 60
    (muteExecuteV1 cfgMin5 "chat1" none 0 []).map rfl rfl).1
  norm_num [cfgOn] at h
  exact h

/-- C3: the duration parser maps the documented examples as stated,
returns a parse failure on input with no matching unit, and tries the
minute, hour and day patterns in that fixed order with the first matching
pattern determining the result. -/
theorem parse_duration_spec :
    parse_duration "10min" = some 10
    ∧ parse_duration "30分钟" = some 30
    ∧ parse_duration "1小时" = some 60
    ∧ parse_duration "2h" = some 120
    ∧ parse_duration "2天" = some 2880
    ∧ parse_duration "banana" = none
    ∧ (∀ (s : String) (n : Nat), findNumUnit unitsMin (lowerData s) = some n →
        parse_duration s = some n)
    ∧ (∀ (s : String) (n : Nat), findNumUnit unitsMin (lowerData s) = none →
        findNumUnit unitsHour (lowerData s) = some n →
        parse_duration s = some (n * 60))
    ∧ (∀ (s : String) (n : Nat), findNumUnit unitsMin (lowerData s) = none →
        findNumUnit unitsHour (lowerData s) = none →
        findNumUnit unitsDay (lowerData s) = some n →
        parse_duration s = some (n * 24 * 60))
    ∧ (∀ (s : String), findNumUnit unitsMin (lowerData s) = none →
        findNumUnit unitsHour (lowerData s) = none →
        findNumUnit unitsDay (lowerData s) = none →
        parse_duration s = none) := by
  refine ⟨by decide, by decide, by decide, by decide, by decide, by decide, ?_, ?_, ?_, ?_⟩
  · intro s n h1
    simp [parse_duration, h1]
  · intro s n h1 h2
    simp [parse_duration, h1, h2]
  · intro s n h1 h2 h3
    simp [parse_duration, h1, h2, h3]
  · intro s h1 h2 h3
    simp [parse_duration, h1, h2, h3]

/-- C3 witness: the hour pattern decides "5h" because the minute pattern
does not match it. -/
theorem parse_duration_spec_witness : parse_duration "5h" = some (5 * 60) :=
  parse_duration_spec.2.2.2.2.2.2.2.1 "5h" 5 (by decide) (by decide)

/-- C4 counterexample: in the handler-based implementation, unmuting a
stream with no record returns success True and sends no message, not the
claimed false-with-a-distinct-message. -/
theorem unmute_absent_reports_success_v1 :
    (unmuteExecuteV1 cfgOn "chat1" ReplyOutcome.ok []).success = true
    ∧ (unmuteExecuteV1 cfgOn "chat1" ReplyOutcome.ok []).sent = [] :=
  ⟨rfl, rfl⟩

/-- C4 amended: unmute removes the record if present; on a muted stream
both implementations report success and a later status check reports
unmuted; on a stream with no record both leave the map unchanged, but only
the chatter-file implementation reports false and sends the distinct
not-muted message, while the handler-based one reports success True and
sends nothing. -/
theorem unmute_removes_and_reports (cfg : Config) (sid : String) (r : ReplyOutcome)
    (m : MutedStreams) (tq : Int)
    (hp : cfg.plugin_enabled = true) (hm : cfg.mute_enabled = true) :
    (dlookup m sid = none →
      (unmuteExecuteV1 cfg sid r m).map = m
      ∧ (unmuteExecuteV1 cfg sid r m).success = true
      ∧ (unmuteExecuteV1 cfg sid r m).sent = []
      ∧ (unmuteExecuteV2 cfg sid r m).map = m
      ∧ (unmuteExecuteV2 cfg sid r m).success = false
      ∧ (unmuteExecuteV2 cfg sid r m).sent = [Msg.notMuted])
    ∧ (∀ e : Int, dlookup m sid = some e →
      (unmuteExecuteV1 cfg sid r m).success = true
      ∧ dlookup (unmuteExecuteV1 cfg sid r m).map sid = none
      ∧ (muteHandlerHandle cfg sid tq (unmuteExecuteV1 cfg sid r m).map).1 = false
      ∧ (unmuteExecuteV2 cfg sid r m).success = true
      ∧ dlookup (unmuteExecuteV2 cfg sid r m).map sid = none
      ∧ (muteHandlerHandle cfg sid tq (unmuteExecuteV2 cfg sid r m).map).1 = false) := by
  constructor
  · intro h
    simp [unmuteExecuteV1, unmuteExecuteV2, hp, hm, h]
  · intro e he
    simp [unmuteExecuteV1, unmuteExecuteV2, muteHandlerHandle, hp, hm, he,
      dlookup_derase_self]

/-- C4 witness: with the defaults, unmuting unmuted chat1 reports false in
the chatter-file implementation, and unmuting muted chat1 removes its
record. -/
theorem unmute_removes_and_reports_witness :
    (unmuteExecuteV2 cfgOn "chat1" ReplyOutcome.ok []).success = false
    ∧ dlookup (unmuteExecuteV1 cfgOn "chat1" ReplyOutcome.ok
        [("chat1", 600)]).map "chat1" = none := by
  refine ⟨((unmute_removes_and_reports cfgOn "chat1" ReplyOutcome.ok [] 0
    rfl rfl).1 rfl).2.2.2.2.1, ?_⟩
  exact ((unmute_removes_and_reports cfgOn "chat1" ReplyOutcome.ok
    [("chat1", 600)] 0 rfl rfl).2 600 (by decide)).2.1

/-- C5 counterexample: with the at-unmute feature toggle disabled in the
configuration, the chatter-based implementation still removes the record
of a muted stream when the bot is mentioned, because the chatter never
loads that toggle into its instance attribute. -/
theorem chatter_at_unmute_ignores_toggle :
    dlookup (chatterExecute
        (chatterLoadConfig ({ at_unmute_enabled := false } : Config) chatterInit)
        "chat1" "bot" "hi" ["bot"] 0 [("chat1", 600)]).1 "chat1" = none := by
  decide

/-- C5 amended: an @-mention of the bot while a stream is muted removes the
record in the handler-based implementation iff the at-unmute toggle (and
the plugin and mute toggles) are on; the chatter-based implementation
removes the record whenever its instance flag is true, and loading the
configuration leaves that flag at its initial value true regardless of the
configured toggle, so the configured toggle cannot disable it there. -/
theorem at_mention_unmute_behavior (cfg : Config) (v : ChatterVals)
    (sid botId content : String) (mentioned : List String) (now e : Int)
    (m : MutedStreams) :
    (cfg.plugin_enabled = true → cfg.mute_enabled = true →
      cfg.at_unmute_enabled = true →
      dlookup m sid = some e → now < e → botId ∈ mentioned →
      dlookup (atUnmuteHandle cfg sid botId mentioned now m) sid = none)
    ∧ (cfg.at_unmute_enabled = false →
      atUnmuteHandle cfg sid botId mentioned now m = m)
    ∧ ((chatterLoadConfig cfg chatterInit).at_unmute_enabled_val = true)
    ∧ (v.at_unmute_enabled_val = true → v.mute_aliases = [] → v.unmute_aliases = [] →
      content ≠ "" → dlookup m sid = some e → now < e → botId ∈ mentioned →
      dlookup (chatterExecute v sid botId content mentioned now m).1 sid = none) := by
  refine ⟨?_, ?_, rfl, ?_⟩
  · intro hp hm hat he hlt hmem
    simp [atUnmuteHandle, hp, hm, hat, he, hlt, hmem, dlookup_derase_self]
  · intro h
    simp [atUnmuteHandle, h]
  · intro hat ha1 ha2 hc he hlt hmem
    simp [chatterExecute, chatterStep1, chatterStep2, chatterAtCheck, chatterStatusCheck,
      hat, ha1, ha2, hc, he, hlt, hmem, dlookup_derase_self]

/-- C5 witness: with every toggle on, an @-mention of the bot in muted
chat1 removes its record in the handler-based implementation. -/
theorem at_mention_unmute_behavior_witness :
    dlookup (atUnmuteHandle cfgOn "chat1" "bot" ["bot"] 0 [("chat1", 600)]) "chat1"
      = none :=
  (at_mention_unmute_behavior cfgOn chatterInit "chat1" "bot" "x" ["bot"] 0 600
    [("chat1", 600)]).1 rfl rfl rfl (by decide) (by decide) (by decide)

/-- C6: after the plugin-load hook clears the registry, no stream has a
record and the status check reports every stream unmuted, whatever was
stored before. -/
theorem registry_cleared_on_load (cfg : Config) (m : MutedStreams) (sid : String)
    (now : Int) :
    dlookup (onPluginLoaded m) sid = none
    ∧ (muteHandlerHandle cfg sid now (onPluginLoaded m)).1 = false := by
  have hl : dlookup (onPluginLoaded m) sid = none := by
    cases m with
    | nil => rfl
    | cons p r => rfl
  refine ⟨hl, ?_⟩
  unfold muteHandlerHandle
  split_ifs <;> simp [hl]

/-- C7: a mute request refused by the plugin-level toggle, the mute-level
toggle or a duration parse failure sends the matching refusal message,
reports failure, and leaves the muted-streams map unchanged, in both
command implementations (only the handler-based one parses a duration). -/
theorem refused_mute_no_mutation (cfg : Config) (sid : String) (args : Option String)
    (t : Int) (m : MutedStreams) :
    (cfg.plugin_enabled = false →
      (muteExecuteV1 cfg sid args t m).map = m
      ∧ (muteExecuteV1 cfg sid args t m).success = false
      ∧ (muteExecuteV1 cfg sid args t m).sent = [Msg.pluginDisabled]
      ∧ (muteExecuteV2 cfg sid t m).map = m
      ∧ (muteExecuteV2 cfg sid t m).success = false
      ∧ (muteExecuteV2 cfg sid t m).sent = [Msg.pluginDisabled])
    ∧ (cfg.plugin_enabled = true → cfg.mute_enabled = false →
      (muteExecuteV1 cfg sid args t m).map = m
      ∧ (muteExecuteV1 cfg sid args t m).success = false
      ∧ (muteExecuteV1 cfg sid args t m).sent = [Msg.muteDisabled]
      ∧ (muteExecuteV2 cfg sid t m).map = m
      ∧ (muteExecuteV2 cfg sid t m).success = false
      ∧ (muteExecuteV2 cfg sid t m).sent = [Msg.muteDisabled])
    ∧ (∀ s : String, cfg.plugin_enabled = true → cfg.mute_enabled = true →
      isBlank s = false → parse_duration (trimS s) = none →
      (muteExecuteV1 cfg sid (some s) t m).map = m
      ∧ (muteExecuteV1 cfg sid (some s) t m).success = false
      ∧ (muteExecuteV1 cfg sid (some s) t m).sent = [Msg.parseError]) := by
  refine ⟨?_, ?_, ?_⟩
  · intro h
    simp [muteExecuteV1, muteExecuteV2, h]
  · intro hp hm
    simp [muteExecuteV1, muteExecuteV2, hp, hm]
  · intro s hp hm hb hd
    simp [muteExecuteV1, muteDuration, hp, hm, hb, hd]

/-- C7 witness: the plugin-off, mute-off and unparsable-duration refusals
at concrete inputs, each with its message and an unchanged map. -/
theorem refused_mute_no_mutation_witness :
    (muteExecuteV1 cfgPluginOff "chat1" none 0 []).map = []
    ∧ (muteExecuteV1 cfgMuteOff "chat1" none 0 []).sent = [Msg.muteDisabled]
    ∧ (muteExecuteV1 cfgOn "chat1" (some "banana") 0 []).sent = [Msg.parseError] :=
  ⟨((refused_mute_no_mutation cfgPluginOff "chat1" none 0 []).1 rfl).1,
    ((refused_mute_no_mutation cfgMuteOff "chat1" none 0 []).2.1 rfl rfl).2.2.1,
    ((refused_mute_no_mutation cfgOn "chat1" (some "banana") 0 []).2.2 "banana"
      rfl rfl (by decide) (by decide)).2.2⟩

/-- C8: for a successful unmute of a muted stream, the outcome is the same
for every reply-trigger result (success, generation failure, no replyer,
or a raised exception): the record stays removed and the operation reports
success in both implementations. -/
theorem unmute_independent_of_reply_trigger (cfg : Config) (sid : String)
    (m : MutedStreams) (e : Int)
    (hp : cfg.plugin_enabled = true) (hm : cfg.mute_enabled = true)
    (hrec : dlookup m sid = some e) :
    ∀ r : ReplyOutcome,
      (unmuteExecuteV1 cfg sid r m).success = true
      ∧ dlookup (unmuteExecuteV1 cfg sid r m).map sid = none
      ∧ (unmuteExecuteV2 cfg sid r m).success = true
      ∧ dlookup (unmuteExecuteV2 cfg sid r m).map sid = none
      ∧ (∀ r2 : ReplyOutcome,
        (unmuteExecuteV1 cfg sid r m).success = (unmuteExecuteV1 cfg sid r2 m).success
        ∧ (unmuteExecuteV1 cfg sid r m).map = (unmuteExecuteV1 cfg sid r2 m).map
        ∧ (unmuteExecuteV1 cfg sid r m).sent = (unmuteExecuteV1 cfg sid r2 m).sent) := by
  intro r
  refine ⟨?_, ?_, ?_, ?_, ?_⟩
  · simp [unmuteExecuteV1, hp, hm, hrec]
  · simp [unmuteExecuteV1, hp, hm, hrec, dlookup_derase_self]
  · simp [unmuteExecuteV2, hp, hm, hrec]
  · simp [unmuteExecuteV2, hp, hm, hrec, dlookup_derase_self]
  · intro r2
    refine ⟨?_, ?_, ?_⟩ <;> simp [unmuteExecuteV1, hp, hm, hrec]

/-- C8 witness: even when the reply trigger raises, unmuting muted chat1
reports success and its record is gone. -/
theorem unmute_independent_of_reply_trigger_witness :
    (unmuteExecuteV1 cfgOn "chat1" (ReplyOutcome.raised "boom")
        [("chat1", 5)]).success = true
    ∧ dlookup (unmuteExecuteV1 cfgOn "chat1" (ReplyOutcome.raised "boom")
        [("chat1", 5)]).map "chat1" = none := by
  have h := unmute_independent_of_reply_trigger cfgOn "chat1" [("chat1", 5)] 5
    rfl rfl (by decide) (ReplyOutcome.raised "boom")
  exact ⟨h.1, h.2.1⟩

/-- C9: every operation performed for stream `sid` leaves the entry of any
other stream `sid2` unchanged: both mute commands, both unmute commands,
the @-unmute handler, the status-check handler, and the whole chatter
execution. -/
theorem operations_frame_other_streams (cfg : Config) (v : ChatterVals)
    (sid sid2 botId content : String) (mentioned : List String) (args : Option String)
    (r : ReplyOutcome) (t : Int) (m : MutedStreams) (hne : sid2 ≠ sid) :
    dlookup (muteExecuteV1 cfg sid args t m).map sid2 = dlookup m sid2
    ∧ dlookup (muteExecuteV2 cfg sid t m).map sid2 = dlookup m sid2
    ∧ dlookup (unmuteExecuteV1 cfg sid r m).map sid2 = dlookup m sid2
    ∧ dlookup (unmuteExecuteV2 cfg sid r m).map sid2 = dlookup m sid2
    ∧ dlookup (atUnmuteHandle cfg sid botId mentioned t m) sid2 = dlookup m sid2
    ∧ dlookup (muteHandlerHandle cfg sid t m).2 sid2 = dlookup m sid2
    ∧ dlookup (chatterExecute v sid botId content mentioned t m).1 sid2
        = dlookup m sid2 := by
  have h1 : ∀ mm, dlookup (chatterStep1 v sid content t mm) sid2 = dlookup mm sid2 := by
    intro mm
    unfold chatterStep1 chatterMuteLogic
    repeat' split
    all_goals simp [dlookup_dinsert_ne, dlookup_derase_ne, hne]
  have h2 : ∀ mm, dlookup (chatterStep2 v sid content mm) sid2 = dlookup mm sid2 := by
    intro mm
    unfold chatterStep2 chatterUnmuteLogic
    repeat' split
    all_goals simp [dlookup_dinsert_ne, dlookup_derase_ne, hne]
  have h3 : ∀ mm, dlookup (chatterAtCheck v sid botId mentioned t mm) sid2
      = dlookup mm sid2 := by
    intro mm
    unfold chatterAtCheck
    repeat' split
    all_goals simp [dlookup_dinsert_ne, dlookup_derase_ne, hne]
  have h4 : ∀ mm, dlookup (chatterStatusCheck sid t mm).1 sid2 = dlookup mm sid2 := by
    intro mm
    unfold chatterStatusCheck
    repeat' split
    all_goals simp [dlookup_dinsert_ne, dlookup_derase_ne, hne]
  refine ⟨?_, ?_, ?_, ?_, ?_, ?_, ?_⟩
  · unfold muteExecuteV1
    repeat' split
    all_goals simp [dlookup_dinsert_ne, dlookup_derase_ne, hne]
  · unfold muteExecuteV2
    repeat' split
    all_goals simp [dlookup_dinsert_ne, dlookup_derase_ne, hne]
  · unfold unmuteExecuteV1
    repeat' split
    all_goals simp [dlookup_dinsert_ne, dlookup_derase_ne, hne]
  · unfold unmuteExecuteV2
    repeat' split
    all_goals simp [dlookup_dinsert_ne, dlookup_derase_ne, hne]
  · unfold atUnmuteHandle
    repeat' split
    all_goals simp [dlookup_dinsert_ne, dlookup_derase_ne, hne]
  · unfold muteHandlerHandle
    repeat' split
    all_goals simp [dlookup_dinsert_ne, dlookup_derase_ne, hne]
  · unfold chatterExecute
    split_ifs
    · rfl
    · rw [h4, h3, h2, h1]

/-- C9 witness: muting stream a does not change the entry of stream b. -/
theorem operations_frame_other_streams_witness :
    dlookup (muteExecuteV1 cfgOn "a" none 0 [("b", 7)]).map "b"
      = dlookup [("b", 7)] "b" :=
  (operations_frame_other_streams cfgOn chatterInit "a" "b" "bot" "x" [] none
    ReplyOutcome.ok 0 [("b", 7)] (by decide)).1

/-- C10: the mute path enforces no positive duration: "0min" parses to
zero (not a parse failure), muting with it succeeds and stores an expiry
equal to the mute time, and any status check at or after that time reports
the stream unmuted and drops the record. -/
theorem zero_duration_mute (cfg : Config) (sid : String) (t tq : Int)
    (m : MutedStreams) (hp : cfg.plugin_enabled = true)
    (hm : cfg.mute_enabled = true) (hle : t ≤ tq) :
    parse_duration "0min" = some 0
    ∧ (muteExecuteV1 cfg sid (some "0min") t m).success = true
    ∧ dlookup (muteExecuteV1 cfg sid (some "0min") t m).map sid = some t
    ∧ (muteHandlerHandle cfg sid tq
        (muteExecuteV1 cfg sid (some "0min") t m).map).1 = false
    ∧ dlookup (muteHandlerHandle cfg sid tq
        (muteExecuteV1 cfg sid (some "0min") t m).map).2 sid = none := by
  have hb : isBlank "0min" = false := by decide
  have hp0 : parse_duration (trimS "0min") = some 0 := by decide
  have hmap : (muteExecuteV1 cfg sid (some "0min") t m).map = dinsert m sid t := by
    simp [muteExecuteV1, muteDuration, hp, hm, hb, hp0]
  have hnl : ¬ (tq < t) := not_lt.mpr hle
  refine ⟨by decide, ?_, ?_, ?_, ?_⟩
  · simp [muteExecuteV1, muteDuration, hp, hm, hb, hp0]
  · rw [hmap]
    exact dlookup_dinsert_self m sid t
  · rw [hmap]
    simp [muteHandlerHandle, hp, hm, dlookup_dinsert_self, hnl]
  · rw [hmap]
    simp [muteHandlerHandle, hp, hm, dlookup_dinsert_self, hnl, dlookup_derase_self]

/-- C10 witness: muting chat1 with "0min" at time 0 stores expiry 0 and
the check at time 0 already reports it unmuted. -/
theorem zero_duration_mute_witness :
    dlookup (muteExecuteV1 cfgOn "chat1" (some "0min") 0 []).map "chat1" = some 0
    ∧ (muteHandlerHandle cfgOn "chat1" 0
        (muteExecuteV1 cfgOn "chat1" (some "0min") 0 []).map).1 = false := by
  have h := zero_duration_mute cfgOn "chat1" 0 0 [] rfl rfl (le_refl 0)
  exact ⟨h.2.2.1, h.2.2.2.1⟩

end MutePlugin
